import Mathlib

/-!
Shallow embedding of the airthings_exporter collector (src/main.go, src/api.go).

Time is modelled in nanoseconds as `Nat` (Go `time.Duration` is an integer
nanosecond count; `time.Since(t).Minutes() > 30` holds exactly when the elapsed
nanoseconds exceed `30 * 60e9`).  The Go zero `time.Time` is modelled as
`none : Option Nat`; `time.Now()` values are `some t`.  The outcomes of the
external collaborators (the OAuth2 token source and the HTTP transport) are
passed in as explicit oracle arguments, since the code only branches on them.
-/

/-- Metric key strings, Go `type AirthingsMetric string` (src/api.go). -/
abbrev AirthingsMetric := String

def Battery : AirthingsMetric := "battery"

def CO2 : AirthingsMetric := "co2"

def Humidity : AirthingsMetric := "humidity"

def Pm1 : AirthingsMetric := "pm1"

def Pm25 : AirthingsMetric := "pm25"

def Pressure : AirthingsMetric := "pressure"

def Radon : AirthingsMetric := "radonShortTermAvg"

def Temperature : AirthingsMetric := "temp"

def VOC : AirthingsMetric := "voc"

def DeviceType : AirthingsMetric := "relayDeviceType"

/-- A decoded JSON value, as Go `encoding/json` decodes into `any`:
numbers become `float64` (modelled as `Rat`, carried opaquely — the code never
computes with the value), strings become `string`, and so on.  The type
assertion `data.(float64)` in `retrieveMetrics` succeeds exactly on `num`. -/
inductive JsonValue where
  | num (v : Rat)
  | str (s : String)
  | boolean (b : Bool)
  | null
  | other
deriving DecidableEq

/-- Go `AirthingsMetricsResult` (src/api.go): `{Data map[AirthingsMetric]any}`.
The map is modelled as an association list (Go map iteration order is
unspecified; none of the verified properties depend on order). -/
structure AirthingsMetricsResult where
  data : List (AirthingsMetric × JsonValue)
deriving DecidableEq

/-- Go `AirthingsSegment` (src/api.go). -/
structure AirthingsSegment where
  id : String
  name : String
  active : Bool
deriving DecidableEq

/-- Go `AirthingsLocation` (src/api.go). -/
structure AirthingsLocation where
  id : String
  name : String
deriving DecidableEq

/-- Go `AirthingDevice` (src/api.go). -/
structure AirthingDevice where
  id : String
  deviceType : String
  sensors : List String
  segment : AirthingsSegment
  location : AirthingsLocation
deriving DecidableEq

/-- Go `AirthingsDevicesResult` (src/api.go): `{Devices []AirthingDevice}`. -/
structure AirthingsDevicesResult where
  devices : List AirthingDevice
deriving DecidableEq

/-- Go `Device` (src/main.go). -/
structure Device where
  id : String
  segment : String
  location : String
deriving DecidableEq

/-- Go `DeviceConfig` (src/main.go): `lastUpdate time.Time; devices []*Device`.
`lastUpdate = none` is the Go zero `time.Time` (`IsZero()` true). -/
structure DeviceConfig where
  lastUpdate : Option Nat
  devices : List Device
deriving DecidableEq

/-- Prometheus value type (`prometheus.ValueType`); the exporter only uses
`GaugeValue`. -/
inductive ValueType where
  | gaugeValue
  | counterValue
  | untypedValue
deriving DecidableEq

/-- Prometheus metric descriptor (`*prometheus.Desc`): fully-qualified name,
help string, variable label names, constant labels. -/
structure PrometheusDesc where
  fqName : String
  help : String
  variableLabels : List String
  constLabels : List (String × String)
deriving DecidableEq

/-- Go `metricInfo` (src/main.go). -/
structure metricInfo where
  desc : PrometheusDesc
  type : ValueType
deriving DecidableEq

/-- Go `type metrics map[AirthingsMetric]metricInfo`, modelled as an
association list; `e.metrics[metric]` is `List.lookup`. -/
abbrev metrics := List (AirthingsMetric × metricInfo)

/-- An emitted metric record, what `prometheus.MustNewConstMetric` sends on the
channel: descriptor, value type, sample value, and label values in order. -/
structure PromMetric where
  desc : PrometheusDesc
  type : ValueType
  value : Rat
  labelValues : List String
deriving DecidableEq

/-- Go `const namespace = "airthings"` (src/main.go; `namespace` is a Lean
keyword, hence the different name). -/
def metricNamespace : String := "airthings"

/-- Go `labelNames = []string{"device", "segment", "location"}`. -/
def labelNames : List String := ["device", "segment", "location"]

/-- Prometheus `BuildFQName`: joins the non-empty components with `_`. -/
def buildFQName (ns sub name : String) : String :=
  if name = "" then ""
  else if ns ≠ "" ∧ sub ≠ "" then ns ++ "_" ++ sub ++ "_" ++ name
  else if ns ≠ "" then ns ++ "_" ++ name
  else if sub ≠ "" then sub ++ "_" ++ name
  else name

/-- Go `newMetric` (src/main.go). -/
def newMetric (metricName : String) (docString : String) (t : ValueType)
    (constLabels : List (String × String)) : metricInfo :=
  { desc := { fqName := buildFQName metricNamespace "cloud" metricName
              help := docString
              variableLabels := labelNames
              constLabels := constLabels }
    type := t }

/-- Go `airthingMetrics` (src/main.go): the static metric registry.  The Go
source passes `nil` for constLabels, modelled as `[]`. -/
def airthingMetrics : metrics :=
  [(Battery, newMetric "battery" "Battery charge capacity" .gaugeValue []),
   (CO2, newMetric "co2" "CO2 levels" .gaugeValue []),
   (Humidity, newMetric "humidity" "Humidity" .gaugeValue []),
   (Pm1, newMetric "pm1" "Extremely fine particles, less than 1 microns" .gaugeValue []),
   (Pm25, newMetric "pm25" "Fine particles, less than 2.5 microns" .gaugeValue []),
   (Pressure, newMetric "air_pressure" "Pressure" .gaugeValue []),
   (Radon, newMetric "radon" "Radon, short term average" .gaugeValue []),
   (Temperature, newMetric "temperature" "Temperature" .gaugeValue []),
   (VOC, newMetric "voc" "Volatile organic compounds" .gaugeValue [])]

/-- Go `prometheus.MustNewConstMetric(atm.Desc, atm.Type, value, labels...)`. -/
def mustNewConstMetric (atm : metricInfo) (value : Rat) (labelValues : List String) :
    PromMetric :=
  { desc := atm.desc, type := atm.type, value := value, labelValues := labelValues }

/-- Outcome of `e.tokenSource.Token()`: a bearer token or an error. -/
inductive TokenResult where
  | ok (accessToken : String)
  | err
deriving DecidableEq

/-- Outcome of one HTTP exchange as seen below the resty client: either the
transport fails outright, or a response arrives with a status code and — when
the body is well-formed JSON for the `SetResult` target — its decoded value
(`parsed = none` means the body failed to unmarshal). -/
inductive HttpOutcome (α : Type) where
  | transportError
  | response (status : Nat) (parsed : Option α)
deriving DecidableEq

/-- The kind of error `resty.Request.Get` returns. -/
inductive RestyError where
  | transport
  | decode
deriving DecidableEq

/-- Behaviour of the go-resty v2 calls at src/main.go:83-93 and 116-129:
`R().SetResult(&T{}).Get(url)` returns a non-nil error only on a transport
failure, or when a 2xx body fails to unmarshal into the `SetResult` target.
A non-2xx response is NOT an error: resty only parses the body into the
result on `IsSuccess()` (status 200-299), so `resp.Result()` then yields the
zero value `zero` that was passed to `SetResult`, with a nil error. -/
def restyResult {α : Type} (zero : α) : HttpOutcome α → Except RestyError α
  | .transportError => .error .transport
  | .response status parsed =>
    if 200 ≤ status ∧ status ≤ 299 then
      match parsed with
      | some v => .ok v
      | none => .error .decode
    else .ok zero

/-- True exactly when an `Except` is an error (Go `err != nil`). -/
def exceptIsError {ε α : Type} : Except ε α → Bool
  | .error _ => true
  | .ok _ => false

/-- Nanoseconds per minute; `time.Duration` counts nanoseconds. -/
def nsPerMinute : Nat := 60000000000

/-- Go `DeviceConfig.updateRequired` (src/main.go:103-106):
`dc.lastUpdate.IsZero() || time.Since(dc.lastUpdate).Minutes() > 30`.
`now` is the current clock reading in nanoseconds; a `lastUpdate` in the
future gives a non-positive elapsed time (here truncated `Nat` subtraction),
which is never `> 30` minutes, as in Go. -/
def DeviceConfig.updateRequired (dc : DeviceConfig) (now : Nat) : Bool :=
  dc.lastUpdate.isNone || decide (30 * nsPerMinute < now - dc.lastUpdate.getD 0)

/-- Go `Exporter.discover` (src/main.go:73-101).  `token` is the outcome of
`e.tokenSource.Token()`, `inv` the outcome of the GET on `/v1/devices`, and
`now` the clock (the same instant models the staleness check and the deferred
`lastUpdate = time.Now()` write).  The `defer` runs on every exit path inside
the `if` body — early returns included — so whenever the branch is entered,
`lastUpdate` is set to `now`.  The returned `Bool` records whether that branch
was entered, i.e. whether a refresh attempt occurred. -/
def discover (now : Nat) (token : TokenResult)
    (inv : HttpOutcome AirthingsDevicesResult) (dc : DeviceConfig) :
    DeviceConfig × Bool :=
  if dc.updateRequired now then
    let dc1 :=
      match token with
      | .err => dc
      | .ok _ =>
        match restyResult (⟨[]⟩ : AirthingsDevicesResult) inv with
        | .error _ => dc
        | .ok result =>
          let devs := result.devices.map
            (fun (r : AirthingDevice) => Device.mk r.id r.segment.name r.location.name)
          { dc with devices := devs }
    ({ dc1 with lastUpdate := some now }, true)
  else (dc, false)

/-- The inner loop of `Exporter.retrieveMetrics` (src/main.go:132-138): for
each entry of `result.Data`, emit a metric iff the key is in `e.metrics` and
the value's `float64` type assertion succeeds, with label values
`d.id, d.segment, d.location`. -/
def emitForDevice (ms : metrics) (d : Device)
    (data : List (AirthingsMetric × JsonValue)) : List PromMetric :=
  data.filterMap (fun kv =>
    match ms.lookup kv.1 with
    | some atm =>
      match kv.2 with
      | .num value => some (mustNewConstMetric atm value [d.id, d.segment, d.location])
      | _ => none
    | none => none)

/-- One iteration of the device loop in `Exporter.retrieveMetrics`
(src/main.go:115-139): `samples` maps a device id to the outcome of the GET on
`/v1/devices/{serialNumber}/latest-samples`.  A request error (`continue`)
contributes nothing; otherwise the decoded `Data` map is emitted. -/
def deviceScrape (ms : metrics) (samples : String → HttpOutcome AirthingsMetricsResult)
    (d : Device) : List PromMetric :=
  match restyResult (⟨[]⟩ : AirthingsMetricsResult) (samples d.id) with
  | .error _ => []
  | .ok result => emitForDevice ms d result.data

/-- Go `Exporter.retrieveMetrics` (src/main.go:108-140): on token failure the
whole emission phase returns nothing; otherwise each cached device is scraped
independently and the records are emitted in device order. -/
def retrieveMetrics (ms : metrics) (token : TokenResult)
    (samples : String → HttpOutcome AirthingsMetricsResult)
    (devices : List Device) : List PromMetric :=
  match token with
  | .err => []
  | .ok _ => (devices.map (deviceScrape ms samples)).flatten

/-- Go `Exporter.Collect` (src/main.go:144-150) minus the mutex: `discover`
then `retrieveMetrics` over the post-refresh device list.  `tokenD` and
`tokenM` are the outcomes of the two separate `e.tokenSource.Token()` calls
(one in `discover`, one in `retrieveMetrics`).  Returns the updated
`deviceConfig` and the emitted records. -/
def Collect (now : Nat) (tokenD tokenM : TokenResult)
    (inv : HttpOutcome AirthingsDevicesResult)
    (samples : String → HttpOutcome AirthingsMetricsResult)
    (dc : DeviceConfig) : DeviceConfig × List PromMetric :=
  let dc1 := (discover now tokenD inv dc).1
  (dc1, retrieveMetrics airthingMetrics tokenM samples dc1.devices)

/-- The nine metric keys of the registry, in registry order, as the spec's
Metric Registry section lists them. -/
def registryKeys : List AirthingsMetric :=
  [Battery, CO2, Humidity, Pm1, Pm25, Pressure, Radon, Temperature, VOC]

/-- Registry row for a key, defaulting to a dummy row off the registry (only
ever read at keys in `registryKeys`). -/
def registryInfo (k : AirthingsMetric) : metricInfo :=
  (airthingMetrics.lookup k).getD (newMetric "" "" .gaugeValue [])

/-- Modelled from the spec (§4.4 step 4): for each reading whose key matches
the Metric Registry and whose value is numeric, one record
`(descriptor, value, labels: [deviceId, segmentLabel, locationLabel])`;
non-numeric values and keys absent from the registry produce no record. -/
def specEmit (d : Device) (data : List (AirthingsMetric × JsonValue)) :
    List PromMetric :=
  data.filterMap (fun kv =>
    match kv.2 with
    | .num v =>
      if kv.1 ∈ registryKeys then
        some { desc := (registryInfo kv.1).desc
               type := (registryInfo kv.1).type
               value := v
               labelValues := [d.id, d.segment, d.location] }
      else none
    | _ => none)

/-- Keys of the registry are exactly the nine metric keys, in order. -/
theorem airthingMetrics_keys : airthingMetrics.map Prod.fst = registryKeys := rfl

/-- Lookup in a string-keyed association list succeeds exactly on the keys. -/
theorem lookup_isSome_iff_mem_keys {β : Type} (l : List (String × β)) (k : String) :
    (l.lookup k).isSome = true ↔ k ∈ l.map Prod.fst := by
  induction l with
  | nil => simp [List.lookup]
  | cons p t ih =>
    obtain ⟨a, b⟩ := p
    by_cases h : k = a
    · subst h
      simp [List.lookup]
    · have hbeq : (k == a) = false := by
        simp [h]
      simp [List.lookup, hbeq, ih, h]

/-- Unfolding of the staleness test into the spec's wording: `lastRefreshTime`
unset, or elapsed time strictly greater than 30 minutes. -/
theorem updateRequired_iff (dc : DeviceConfig) (now : Nat) :
    dc.updateRequired now = true ↔
      (dc.lastUpdate = none ∨ ∃ t, dc.lastUpdate = some t ∧ 30 * nsPerMinute < now - t) := by
  cases hl : dc.lastUpdate with
  | none => simp [DeviceConfig.updateRequired, hl]
  | some t => simp [DeviceConfig.updateRequired, hl]

/-- A refresh attempt always ends by writing `lastUpdate := some now`. -/
theorem discover_attempt_lastUpdate (now : Nat) (token : TokenResult)
    (inv : HttpOutcome AirthingsDevicesResult) (dc : DeviceConfig)
    (h : dc.updateRequired now = true) :
    (discover now token inv dc).1.lastUpdate = some now := by
  simp [discover, h]

/-- With no refresh attempt, `discover` changes nothing. -/
theorem discover_no_attempt (now : Nat) (token : TokenResult)
    (inv : HttpOutcome AirthingsDevicesResult) (dc : DeviceConfig)
    (h : dc.updateRequired now = false) :
    discover now token inv dc = (dc, false) := by
  simp [discover, h]

/-- A failed refresh (token error, or an erroring inventory request) never
touches the device list. -/
theorem discover_failure_devices (now : Nat) (token : TokenResult)
    (inv : HttpOutcome AirthingsDevicesResult) (dc : DeviceConfig)
    (hfail : token = TokenResult.err ∨
      exceptIsError (restyResult (⟨[]⟩ : AirthingsDevicesResult) inv) = true) :
    (discover now token inv dc).1.devices = dc.devices := by
  by_cases h : dc.updateRequired now
  · rcases hfail with hf | hf
    · subst hf
      simp [discover, h]
    · cases token with
      | err => simp [discover, h]
      | ok tok =>
        rcases hr : restyResult (⟨[]⟩ : AirthingsDevicesResult) inv with e | r
        · simp [discover, h, hr]
        · rw [hr] at hf
          simp [exceptIsError] at hf
  · simp [discover, h]

/-- Claim C1: whenever the staleness condition holds at entry to a scrape, the
refresh attempt updates `lastUpdate` to the attempt time on every path —
success, token failure, or inventory-fetch failure — and the `Collect`
state handed to the metrics-emission phase already carries that timestamp. -/
theorem C1_attempt_always_updates_timestamp (now : Nat) (tokenD tokenM : TokenResult)
    (inv : HttpOutcome AirthingsDevicesResult)
    (samples : String → HttpOutcome AirthingsMetricsResult) (dc : DeviceConfig)
    (h : dc.updateRequired now = true) :
    (discover now tokenD inv dc).1.lastUpdate = some now
    ∧ (Collect now tokenD tokenM inv samples dc).1.lastUpdate = some now
    ∧ (Collect now tokenD tokenM inv samples dc).2
        = retrieveMetrics airthingMetrics tokenM samples (discover now tokenD inv dc).1.devices := by
  refine ⟨discover_attempt_lastUpdate now tokenD inv dc h, ?_, rfl⟩
  simp [Collect, discover_attempt_lastUpdate now tokenD inv dc h]

/-- Witness for C1 at a concrete stale state with a failing token source. -/
theorem C1_witness :
    (DeviceConfig.mk none []).updateRequired 3 = true
    ∧ (discover 3 TokenResult.err HttpOutcome.transportError (DeviceConfig.mk none [])).1.lastUpdate
        = some 3 :=
  ⟨by decide,
   (C1_attempt_always_updates_timestamp 3 TokenResult.err TokenResult.err
     HttpOutcome.transportError (fun _ => HttpOutcome.transportError)
     (DeviceConfig.mk none []) (by decide)).1⟩

/-- Claim C2: a failed refresh attempt (token error or inventory-request
error) leaves the cached device list identical — same list, hence same count
and per-device fields. -/
theorem C2_failed_refresh_keeps_device_list (now : Nat) (token : TokenResult)
    (inv : HttpOutcome AirthingsDevicesResult) (dc : DeviceConfig)
    (hfail : token = TokenResult.err ∨
      exceptIsError (restyResult (⟨[]⟩ : AirthingsDevicesResult) inv) = true) :
    (discover now token inv dc).1.devices = dc.devices
    ∧ (discover now token inv dc).1.devices.length = dc.devices.length := by
  have hdev := discover_failure_devices now token inv dc hfail
  exact ⟨hdev, by rw [hdev]⟩

/-- Witness for C2: a non-empty cached list survives a transport-failed
refresh attempt. -/
theorem C2_witness :
    exceptIsError (restyResult (⟨[]⟩ : AirthingsDevicesResult) HttpOutcome.transportError) = true
    ∧ (discover 0 (TokenResult.ok "tok") HttpOutcome.transportError
        (DeviceConfig.mk none [Device.mk "d1" "seg" "loc"])).1.devices
        = [Device.mk "d1" "seg" "loc"] :=
  ⟨by decide,
   by
    have h := C2_failed_refresh_keeps_device_list 0 (TokenResult.ok "tok")
      HttpOutcome.transportError (DeviceConfig.mk none [Device.mk "d1" "seg" "loc"])
      (Or.inr (by decide))
    exact h.1⟩

/-- Claim C4, counterexample: at the zero timestamp, a refresh attempt that
fails on token acquisition still sets `lastUpdate` to the attempt time, so a
failed refresh does not leave `lastRefreshTime` untouched. -/
theorem C4_counterexample :
    (discover 7 TokenResult.err HttpOutcome.transportError (DeviceConfig.mk none [])).1.lastUpdate
      = some 7
    ∧ some 7 ≠ (none : Option Nat) := by
  constructor
  · rfl
  · simp

/-- Claim C4 as amended: `lastRefreshTime` keeps its zero value until the
first refresh ATTEMPT (not the first success); a failed attempt sets it to
the attempt time while leaving the device list untouched, and a scrape with
no attempt changes nothing. -/
theorem C4_amended_timestamp_semantics (now : Nat) (token : TokenResult)
    (inv : HttpOutcome AirthingsDevicesResult) (dc : DeviceConfig)
    (hfail : token = TokenResult.err ∨
      exceptIsError (restyResult (⟨[]⟩ : AirthingsDevicesResult) inv) = true) :
    ((discover now token inv dc).2 = false → (discover now token inv dc).1 = dc)
    ∧ ((discover now token inv dc).2 = true →
        (discover now token inv dc).1.lastUpdate = some now
        ∧ (discover now token inv dc).1.devices = dc.devices) := by
  by_cases h : dc.updateRequired now
  · refine ⟨?_, fun _ => ⟨discover_attempt_lastUpdate now token inv dc h,
      discover_failure_devices now token inv dc hfail⟩⟩
    intro habs
    rw [show (discover now token inv dc).2 = true by simp [discover, h]] at habs
    cases habs
  · have hno := discover_no_attempt now token inv dc (by simpa using h)
    refine ⟨fun _ => by rw [hno], fun habs => ?_⟩
    rw [hno] at habs
    cases habs

/-- Witness for C4 as amended, at a fresh state (no attempt) with a failing
token source. -/
theorem C4_witness :
    (discover 0 TokenResult.err HttpOutcome.transportError
        (DeviceConfig.mk (some 0) [Device.mk "d1" "s" "l"])).2 = false
    ∧ (discover 0 TokenResult.err HttpOutcome.transportError
        (DeviceConfig.mk (some 0) [Device.mk "d1" "s" "l"])).1
        = DeviceConfig.mk (some 0) [Device.mk "d1" "s" "l"] :=
  ⟨by decide,
   (C4_amended_timestamp_semantics 0 TokenResult.err HttpOutcome.transportError
     (DeviceConfig.mk (some 0) [Device.mk "d1" "s" "l"]) (Or.inl rfl)).1 (by decide)⟩

/-- Claim C5: a refresh attempt occurs in a scrape exactly when
`lastRefreshTime` is unset or strictly more than 30 minutes old; in every
other state `discover` attempts nothing and leaves the state unchanged. -/
theorem C5_refresh_iff_unset_or_elapsed (now : Nat) (token : TokenResult)
    (inv : HttpOutcome AirthingsDevicesResult) (dc : DeviceConfig) :
    ((discover now token inv dc).2 = true ↔
      (dc.lastUpdate = none ∨ ∃ t, dc.lastUpdate = some t ∧ 30 * nsPerMinute < now - t))
    ∧ ((discover now token inv dc).2 = false → discover now token inv dc = (dc, false)) := by
  by_cases h : dc.updateRequired now
  · constructor
    · rw [show (discover now token inv dc).2 = true by simp [discover, h]]
      simp only [true_iff]
      exact (updateRequired_iff dc now).mp h
    · intro habs
      rw [show (discover now token inv dc).2 = true by simp [discover, h]] at habs
      cases habs
  · have hno := discover_no_attempt now token inv dc (by simpa using h)
    constructor
    · rw [hno]
      constructor
      · intro habs
        cases habs
      · intro hspec
        exact absurd ((updateRequired_iff dc now).mpr hspec) h
    · intro _
      exact hno

/-- Witness for C5 applied at the zero-timestamp state. -/
theorem C5_witness :
    (discover 3 TokenResult.err HttpOutcome.transportError (DeviceConfig.mk none [])).2 = true :=
  ((C5_refresh_iff_unset_or_elapsed 3 TokenResult.err HttpOutcome.transportError
    (DeviceConfig.mk none [])).1).mpr (Or.inl rfl)

/-- Claim C9, counterexample: with an empty cached device list but a refresh
timestamp only 5 minutes old, no refresh attempt occurs — an empty list does
not by itself make the inventory stale, contrary to the claim. -/
theorem C9_counterexample :
    (DeviceConfig.mk (some 0) []).devices = []
    ∧ (discover (5 * nsPerMinute) (TokenResult.ok "tok")
        (HttpOutcome.response 200 (some (AirthingsDevicesResult.mk [])))
        (DeviceConfig.mk (some 0) [])).2 = false := by
  exact ⟨rfl, by decide⟩

/-- Claim C9 as amended: on a scrape that starts with an empty cached device
list, a refresh attempt occurs iff `lastRefreshTime` is unset or strictly
more than 30 minutes old — the emptiness of the list plays no role in the
staleness test. -/
theorem C9_amended_empty_list_refresh (now : Nat) (token : TokenResult)
    (inv : HttpOutcome AirthingsDevicesResult) (dc : DeviceConfig)
    (hempty : dc.devices = []) :
    (discover now token inv dc).2 = true ↔
      (dc.lastUpdate = none ∨ 30 * nsPerMinute < now - dc.lastUpdate.getD 0) := by
  have hiff : dc.updateRequired now = true ↔
      (dc.lastUpdate = none ∨ 30 * nsPerMinute < now - dc.lastUpdate.getD 0) := by
    cases hl : dc.lastUpdate with
    | none => simp [DeviceConfig.updateRequired, hl]
    | some t => simp [DeviceConfig.updateRequired, hl]
  by_cases h : dc.updateRequired now
  · rw [show (discover now token inv dc).2 = true by simp [discover, h]]
    exact ⟨fun _ => hiff.mp h, fun _ => rfl⟩
  · have hno := discover_no_attempt now token inv dc (by simpa using h)
    rw [hno]
    constructor
    · intro habs
      cases habs
    · intro hspec
      exact absurd (hiff.mpr hspec) h

/-- Witness for C9 as amended: empty list, timestamp 5 minutes old, no
refresh attempt. -/
theorem C9_witness :
    (DeviceConfig.mk (some 0) []).devices = []
    ∧ ¬ (discover (5 * nsPerMinute) (TokenResult.ok "tok") HttpOutcome.transportError
        (DeviceConfig.mk (some 0) [])).2 = true :=
  ⟨rfl,
   fun habs =>
     absurd ((C9_amended_empty_list_refresh (5 * nsPerMinute) (TokenResult.ok "tok")
       HttpOutcome.transportError (DeviceConfig.mk (some 0) []) rfl).mp habs)
       (by decide)⟩

/-- Claim C3, counterexample: a 503 response on the inventory endpoint is NOT
an error for the resty call (`err == nil`), and the refresh logic treats it
as a successful refresh with an empty device list — the previously cached
device is discarded instead of retained. -/
theorem C3_counterexample :
    restyResult (⟨[]⟩ : AirthingsDevicesResult) (HttpOutcome.response 503 none)
      = Except.ok (AirthingsDevicesResult.mk [])
    ∧ (discover (31 * nsPerMinute) (TokenResult.ok "tok") (HttpOutcome.response 503 none)
        (DeviceConfig.mk (some 0) [Device.mk "d1" "seg" "loc"])).1.devices = [] := by
  exact ⟨rfl, rfl⟩

/-- Claim C3 as amended: the inventory request yields an error on transport
failure and on a malformed 2xx body — and those failures retain the previous
list — but a non-2xx response yields no error: the refresh logic then treats
it as a successful refresh and replaces the cached device list with the empty
list. -/
theorem C3_amended_inventory_error_behaviour (status : Nat)
    (body : Option AirthingsDevicesResult) (now : Nat) (tok : String)
    (dc : DeviceConfig) :
    (restyResult (⟨[]⟩ : AirthingsDevicesResult) HttpOutcome.transportError
      = Except.error RestyError.transport)
    ∧ ((200 ≤ status ∧ status ≤ 299) → body = none →
        restyResult (⟨[]⟩ : AirthingsDevicesResult) (HttpOutcome.response status body)
          = Except.error RestyError.decode)
    ∧ (¬(200 ≤ status ∧ status ≤ 299) →
        restyResult (⟨[]⟩ : AirthingsDevicesResult) (HttpOutcome.response status body)
          = Except.ok (AirthingsDevicesResult.mk []))
    ∧ (¬(200 ≤ status ∧ status ≤ 299) → dc.updateRequired now = true →
        (discover now (TokenResult.ok tok) (HttpOutcome.response status body) dc).1.devices
          = []) := by
  refine ⟨rfl, ?_, ?_, ?_⟩
  · intro h hb
    subst hb
    simp [restyResult, h]
  · intro h
    simp [restyResult, h]
  · intro h hreq
    simp [discover, hreq, restyResult, h]

/-- Witness for C3 as amended at status 503. -/
theorem C3_witness :
    ¬(200 ≤ 503 ∧ 503 ≤ 299)
    ∧ restyResult (⟨[]⟩ : AirthingsDevicesResult) (HttpOutcome.response 503 none)
        = Except.ok (AirthingsDevicesResult.mk [])
    ∧ (discover (31 * nsPerMinute) (TokenResult.ok "t") (HttpOutcome.response 503 none)
        (DeviceConfig.mk (some 0) [Device.mk "d2" "s" "l"])).1.devices = [] :=
  ⟨by decide,
   (C3_amended_inventory_error_behaviour 503 none (31 * nsPerMinute) "t"
     (DeviceConfig.mk (some 0) [Device.mk "d2" "s" "l"])).2.2.1 (by decide),
   (C3_amended_inventory_error_behaviour 503 none (31 * nsPerMinute) "t"
     (DeviceConfig.mk (some 0) [Device.mk "d2" "s" "l"])).2.2.2 (by decide) (by decide)⟩

/-- Per-entry agreement between the emission filter in the code (registry
lookup, then float64 type assertion) and the spec's description of it
(numeric value whose key is among the nine registry kinds). -/
theorem emit_entry_agrees (d : Device) (k : AirthingsMetric) (v : JsonValue) :
    (match airthingMetrics.lookup k with
     | some atm =>
       match v with
       | JsonValue.num value =>
         some (mustNewConstMetric atm value [d.id, d.segment, d.location])
       | _ => none
     | none => none)
    = (match v with
       | JsonValue.num value =>
         if k ∈ registryKeys then
           some { desc := (registryInfo k).desc
                  type := (registryInfo k).type
                  value := value
                  labelValues := [d.id, d.segment, d.location] }
         else none
       | _ => none) := by
  cases v with
  | num x =>
    cases hl : airthingMetrics.lookup k with
    | none =>
      have hmem : ¬ k ∈ registryKeys := by
        rw [← airthingMetrics_keys]
        intro hm
        have hs := (lookup_isSome_iff_mem_keys airthingMetrics k).mpr hm
        rw [hl] at hs
        cases hs
      simp [hmem]
    | some atm =>
      have hmem : k ∈ registryKeys := by
        rw [← airthingMetrics_keys]
        exact (lookup_isSome_iff_mem_keys airthingMetrics k).mp (by rw [hl]; rfl)
      simp [hmem, registryInfo, hl, mustNewConstMetric]
  | str s =>
    cases hl : airthingMetrics.lookup k <;> rfl
  | boolean b =>
    cases hl : airthingMetrics.lookup k <;> rfl
  | null =>
    cases hl : airthingMetrics.lookup k <;> rfl
  | other =>
    cases hl : airthingMetrics.lookup k <;> rfl

/-- The code's per-device emission loop computes exactly the spec's record
list. -/
theorem emitForDevice_eq_specEmit (d : Device)
    (data : List (AirthingsMetric × JsonValue)) :
    emitForDevice airthingMetrics d data = specEmit d data := by
  unfold emitForDevice specEmit
  congr 1
  funext kv
  exact emit_entry_agrees d kv.1 kv.2

/-- Claim C6: for a device whose sample fetch succeeds with decoded data, the
scrape emits exactly the records the spec describes — one per reading whose
key is among the nine registry kinds and whose value is numeric, carrying the
value and the labels (device id, segment, location) in that order — and the
registry's keys are exactly those nine kinds. -/
theorem C6_emission_matches_registry
    (samples : String → HttpOutcome AirthingsMetricsResult) (d : Device)
    (data : List (AirthingsMetric × JsonValue))
    (hfetch : restyResult (⟨[]⟩ : AirthingsMetricsResult) (samples d.id)
      = Except.ok (AirthingsMetricsResult.mk data)) :
    deviceScrape airthingMetrics samples d = specEmit d data
    ∧ airthingMetrics.map Prod.fst = registryKeys := by
  refine ⟨?_, rfl⟩
  unfold deviceScrape
  rw [hfetch]
  exact emitForDevice_eq_specEmit d data

/-- Witness for C6, the spec's scenario: a co2 reading of 450 plus a
non-numeric relayDeviceType field yields exactly one co2 gauge record with
labels (d1, Office, HQ). -/
theorem C6_witness :
    restyResult (⟨[]⟩ : AirthingsMetricsResult)
        ((fun _ => HttpOutcome.response 200 (some (AirthingsMetricsResult.mk
          [(CO2, JsonValue.num 450), (DeviceType, JsonValue.str "wave_plus")]))) "d1")
      = Except.ok (AirthingsMetricsResult.mk
          [(CO2, JsonValue.num 450), (DeviceType, JsonValue.str "wave_plus")])
    ∧ deviceScrape airthingMetrics
        (fun _ => HttpOutcome.response 200 (some (AirthingsMetricsResult.mk
          [(CO2, JsonValue.num 450), (DeviceType, JsonValue.str "wave_plus")])))
        (Device.mk "d1" "Office" "HQ")
      = specEmit (Device.mk "d1" "Office" "HQ")
          [(CO2, JsonValue.num 450), (DeviceType, JsonValue.str "wave_plus")]
    ∧ specEmit (Device.mk "d1" "Office" "HQ")
          [(CO2, JsonValue.num 450), (DeviceType, JsonValue.str "wave_plus")]
      = [mustNewConstMetric (newMetric "co2" "CO2 levels" ValueType.gaugeValue []) 450
          ["d1", "Office", "HQ"]] :=
  ⟨rfl,
   (C6_emission_matches_registry
     (fun _ => HttpOutcome.response 200 (some (AirthingsMetricsResult.mk
       [(CO2, JsonValue.num 450), (DeviceType, JsonValue.str "wave_plus")])))
     (Device.mk "d1" "Office" "HQ")
     [(CO2, JsonValue.num 450), (DeviceType, JsonValue.str "wave_plus")] rfl).1,
   by decide⟩

/-- Claim C7: a failing sample fetch for device X contributes zero records,
and every other device's records are exactly those of a run under any sample
oracle that agrees outside X — in particular one where X succeeds. -/
theorem C7_device_failure_isolated (tok : String)
    (samples samplesAlt : String → HttpOutcome AirthingsMetricsResult)
    (X : Device) (l1 l2 : List Device)
    (hfail : exceptIsError
      (restyResult (⟨[]⟩ : AirthingsMetricsResult) (samples X.id)) = true)
    (hagree : ∀ d, d ∈ l1 ++ l2 → samples d.id = samplesAlt d.id) :
    deviceScrape airthingMetrics samples X = []
    ∧ retrieveMetrics airthingMetrics (TokenResult.ok tok) samples (l1 ++ X :: l2)
      = retrieveMetrics airthingMetrics (TokenResult.ok tok) samplesAlt l1
        ++ retrieveMetrics airthingMetrics (TokenResult.ok tok) samplesAlt l2 := by
  have hX : deviceScrape airthingMetrics samples X = [] := by
    unfold deviceScrape
    cases hr : restyResult (⟨[]⟩ : AirthingsMetricsResult) (samples X.id) with
    | error e => rfl
    | ok r =>
      rw [hr] at hfail
      simp [exceptIsError] at hfail
  refine ⟨hX, ?_⟩
  have hmap1 : l1.map (deviceScrape airthingMetrics samples)
      = l1.map (deviceScrape airthingMetrics samplesAlt) := by
    apply List.map_congr_left
    intro d hd
    unfold deviceScrape
    rw [hagree d (List.mem_append_left l2 hd)]
  have hmap2 : l2.map (deviceScrape airthingMetrics samples)
      = l2.map (deviceScrape airthingMetrics samplesAlt) := by
    apply List.map_congr_left
    intro d hd
    unfold deviceScrape
    rw [hagree d (List.mem_append_right l1 hd)]
  simp [retrieveMetrics, hX, hmap1, hmap2]

/-- Witness for C7, the spec's scenario: device a's fetch errors, device b
returns one valid humidity reading; the scrape over (a, b) yields exactly
b's one record, the same as a run where a would have succeeded with a co2
reading. -/
theorem C7_witness :
    exceptIsError (restyResult (⟨[]⟩ : AirthingsMetricsResult)
        ((fun id => if id = "a" then HttpOutcome.transportError
          else HttpOutcome.response 200 (some (AirthingsMetricsResult.mk
            [(Humidity, JsonValue.num 40)]))) "a")) = true
    ∧ (deviceScrape airthingMetrics
        (fun id => if id = "a" then HttpOutcome.transportError
          else HttpOutcome.response 200 (some (AirthingsMetricsResult.mk
            [(Humidity, JsonValue.num 40)])))
        (Device.mk "a" "sa" "la") = []
      ∧ retrieveMetrics airthingMetrics (TokenResult.ok "tok")
          (fun id => if id = "a" then HttpOutcome.transportError
            else HttpOutcome.response 200 (some (AirthingsMetricsResult.mk
              [(Humidity, JsonValue.num 40)])))
          ([] ++ Device.mk "a" "sa" "la" :: [Device.mk "b" "sb" "lb"])
        = retrieveMetrics airthingMetrics (TokenResult.ok "tok")
            (fun id => if id = "a" then HttpOutcome.response 200
                (some (AirthingsMetricsResult.mk [(CO2, JsonValue.num 600)]))
              else HttpOutcome.response 200 (some (AirthingsMetricsResult.mk
                [(Humidity, JsonValue.num 40)]))) []
          ++ retrieveMetrics airthingMetrics (TokenResult.ok "tok")
              (fun id => if id = "a" then HttpOutcome.response 200
                  (some (AirthingsMetricsResult.mk [(CO2, JsonValue.num 600)]))
                else HttpOutcome.response 200 (some (AirthingsMetricsResult.mk
                  [(Humidity, JsonValue.num 40)]))) [Device.mk "b" "sb" "lb"])
    ∧ retrieveMetrics airthingMetrics (TokenResult.ok "tok")
        (fun id => if id = "a" then HttpOutcome.transportError
          else HttpOutcome.response 200 (some (AirthingsMetricsResult.mk
            [(Humidity, JsonValue.num 40)])))
        [Device.mk "a" "sa" "la", Device.mk "b" "sb" "lb"]
      = [mustNewConstMetric (newMetric "humidity" "Humidity" ValueType.gaugeValue []) 40
          ["b", "sb", "lb"]] :=
  ⟨by decide,
   C7_device_failure_isolated "tok"
     (fun id => if id = "a" then HttpOutcome.transportError
       else HttpOutcome.response 200 (some (AirthingsMetricsResult.mk
         [(Humidity, JsonValue.num 40)])))
     (fun id => if id = "a" then HttpOutcome.response 200
         (some (AirthingsMetricsResult.mk [(CO2, JsonValue.num 600)]))
       else HttpOutcome.response 200 (some (AirthingsMetricsResult.mk
         [(Humidity, JsonValue.num 40)])))
     (Device.mk "a" "sa" "la") [] [Device.mk "b" "sb" "lb"]
     (by decide) (by decide),
   by decide⟩

/-- Claim C8: if token acquisition fails on a scrape that starts with no
cached inventory, the scrape emits zero records and the device list stays
empty; the model is a total function, so the scrape completes rather than
panicking. -/
theorem C8_token_failure_empty_inventory (now : Nat)
    (inv : HttpOutcome AirthingsDevicesResult)
    (samples : String → HttpOutcome AirthingsMetricsResult) :
    (Collect now TokenResult.err TokenResult.err inv samples
        (DeviceConfig.mk none [])).1.devices = []
    ∧ (Collect now TokenResult.err TokenResult.err inv samples
        (DeviceConfig.mk none [])).2 = [] := by
  constructor <;>
    simp [Collect, discover, retrieveMetrics, DeviceConfig.updateRequired]
